import Mathlib

/-!
Shallow embedding of the browser-shell repository's managers
(bookmarks, history, todos, tracker blocker, site blocker, translator),
translated from the Python source, together with theorems settling the
spec claims.  Nondeterministic inputs of the source (`datetime.now()`,
`uuid`, the regex engine) are passed in explicitly as parameters.
-/

namespace Browser

/-- Python's substring test `needle in hay` on strings. -/
def strIn (needle hay : String) : Bool :=
  (List.range (hay.data.length + 1)).any fun i => needle.data.isPrefixOf (hay.data.drop i)

/-- Helper for `splitOnChar`: split the remaining characters, carrying the
current piece in reverse. -/
def splitOnCharAux (c : Char) : List Char → List Char → List (List Char)
  | [], acc => [acc.reverse]
  | x :: xs, acc =>
    if x = c then acc.reverse :: splitOnCharAux c xs []
    else splitOnCharAux c xs (x :: acc)

/-- Python's `s.split(sep)` for a one-character separator (the only kind the
source uses). -/
def splitOnChar (c : Char) (s : String) : List String :=
  (splitOnCharAux c s.data []).map (fun l => ⟨l⟩)

/-- Python's `str.lower()` (the source only lowercases ASCII data). -/
def pyLower (s : String) : String :=
  ⟨s.data.map Char.toLower⟩

/-- Parse a decimal digit string (what `strptime` accepts for `%H`/`%M`). -/
def charsToNat? (l : List Char) : Option Nat :=
  if l ≠ [] ∧ l.all (fun c => c.isDigit) then
    some (l.foldl (fun n c => n * 10 + (c.toNat - 48)) 0)
  else none

/-- Python's `startswith` on strings. -/
def strStartsWith (hay needle : String) : Bool :=
  needle.data.isPrefixOf hay.data

/-- Python's `s or dflt` for an optional string: `None` and `''` are falsy. -/
def pyOrStr (s : Option String) (dflt : String) : String :=
  match s with
  | some v => if v = "" then dflt else v
  | none => dflt

/-- Remove the first element satisfying `p` (Python `list.remove`, where the
element removed is the first one satisfying the predicate used to find it). -/
def eraseFirstP (p : α → Bool) : List α → List α
  | [] => []
  | x :: xs => if p x then xs else x :: eraseFirstP p xs

/-- Update (in place) the first element satisfying `p`. -/
def updateFirstP (p : α → Bool) (f : α → α) : List α → List α
  | [] => []
  | x :: xs => if p x then f x :: xs else x :: updateFirstP p f xs

/-- Increment a `defaultdict(int)` entry, modelled as an association list
with unique keys (a Python dict cannot hold duplicate keys). -/
def dictIncr (k : String) : List (String × Nat) → List (String × Nat)
  | [] => [(k, 1)]
  | (k', v) :: rest => if k' = k then (k', v + 1) :: rest else (k', v) :: dictIncr k rest

/-- Evaluate a Python list literal whose element expressions may raise:
elements are evaluated left to right and the first exception aborts. -/
def exceptSequence : List (Except String α) → Except String (List α)
  | [] => Except.ok []
  | Except.error e :: _ => Except.error e
  | Except.ok a :: rest => (exceptSequence rest).map (fun l => a :: l)

/-! ## src/bookmarks.py -/

structure Bookmark where
  url : String
  title : String
  folder : String
  favicon : String
  created_at : String
deriving DecidableEq

/-- `Bookmark.__init__`; `now` stands for `datetime.now().isoformat()`. -/
def Bookmark.init (now url title : String) (folder : String := "default")
    (favicon : String := "") (created_at : Option String := none) : Bookmark :=
  { url := url, title := title, folder := folder, favicon := favicon,
    created_at := pyOrStr created_at now }

/-- The JSON dict produced by `Bookmark.to_dict` (exactly these five keys). -/
structure BookmarkDict where
  url : String
  title : String
  folder : String
  favicon : String
  created_at : String
deriving DecidableEq

def Bookmark.to_dict (b : Bookmark) : BookmarkDict :=
  ⟨b.url, b.title, b.folder, b.favicon, b.created_at⟩

/-- `Bookmark.from_dict` is `cls(**data)`: each key is passed to `__init__`. -/
def Bookmark.from_dict (now : String) (d : BookmarkDict) : Bookmark :=
  Bookmark.init now d.url d.title d.folder d.favicon (some d.created_at)

/-- In-memory `BookmarkManager` state.  The `folders` dict is an
insertion-ordered association list (key, display name). -/
structure BookmarkManager where
  bookmarks : List Bookmark
  folders : List (String × String)
deriving DecidableEq

/-- State right after `BookmarkManager.__init__` field assignments
(before `_load`). -/
def BookmarkManager.init0 : BookmarkManager :=
  { bookmarks := [],
    folders := [("default", "Default"), ("work", "Work"), ("personal", "Personal")] }

/-- The JSON document `_save` writes: always both keys `bookmarks` and
`folders`. -/
structure BookmarksFile where
  bookmarks : List BookmarkDict
  folders : List (String × String)
deriving DecidableEq

def BookmarkManager.save (m : BookmarkManager) : BookmarksFile :=
  ⟨m.bookmarks.map Bookmark.to_dict, m.folders⟩

/-- `BookmarkManager._load` applied to a parsed document written by `_save`;
since such a document always carries both keys, neither `data.get` default
fires. -/
def BookmarkManager.loadFrom (now : String) (f : BookmarksFile) : BookmarkManager :=
  { bookmarks := f.bookmarks.map (Bookmark.from_dict now),
    folders := f.folders }

/-- `BookmarkManager.add`: build the bookmark, `insert(0, ...)`, save. -/
def BookmarkManager.add (m : BookmarkManager) (now url title : String)
    (folder : String := "default") (favicon : String := "") :
    Bookmark × BookmarkManager :=
  let bookmark := Bookmark.init now url title folder favicon
  (bookmark, { m with bookmarks := bookmark :: m.bookmarks })

/-- `BookmarkManager.remove`: filter by url, report whether anything went. -/
def BookmarkManager.remove (m : BookmarkManager) (url : String) :
    Bool × BookmarkManager :=
  let remaining := m.bookmarks.filter (fun b => b.url ≠ url)
  (decide (remaining.length < m.bookmarks.length), { m with bookmarks := remaining })

def BookmarkManager.get_all (m : BookmarkManager) : List Bookmark :=
  m.bookmarks

/-- `BookmarkManager.search`: lowercase the query once, keep bookmarks whose
lowered title or url contains it. -/
def BookmarkManager.search (m : BookmarkManager) (query : String) : List Bookmark :=
  let query := pyLower query
  m.bookmarks.filter (fun b => strIn query (pyLower b.title) || strIn query (pyLower b.url))

/-- `BookmarkManager.remove_folder`: delete the key (never `'default'`) and
move its bookmarks to `'default'`. -/
def BookmarkManager.remove_folder (m : BookmarkManager) (name : String) :
    BookmarkManager :=
  if m.folders.any (fun kv => kv.1 = name) ∧ name ≠ "default" then
    { m with
      folders := m.folders.filter (fun kv => kv.1 ≠ name),
      bookmarks := m.bookmarks.map (fun b =>
        if b.folder = name then { b with folder := "default" } else b) }
  else m

/-! ## src/history.py -/

structure HistoryEntry where
  url : String
  title : String
  visit_count : Nat
  last_visit : String
  favicon : String
  first_visit : String
deriving DecidableEq

/-- `HistoryEntry.__init__` (the source calls `datetime.now()` twice for the
two defaulted fields; both stand for the same instant `now`). -/
def HistoryEntry.init (now url title : String) (visit_count : Nat := 1)
    (last_visit : Option String := none) (favicon : String := "") : HistoryEntry :=
  { url := url, title := title, visit_count := visit_count,
    last_visit := pyOrStr last_visit now, favicon := favicon,
    first_visit := pyOrStr last_visit now }

structure HistoryManager where
  history : List HistoryEntry
  max_entries : Nat
deriving DecidableEq

/-- `HistoryManager.add`.  The loop finds the first entry with this url,
mutates it in place and `list.remove`s that very object (identity equality),
i.e. erases the first url match; otherwise a fresh entry is inserted at the
front and the list truncated to `max_entries`. -/
def HistoryManager.add (m : HistoryManager) (now url : String)
    (title : String := "") (favicon : String := "") : HistoryManager :=
  match m.history.find? (fun e => e.url = url) with
  | some entry =>
    let entry' := { entry with
      visit_count := entry.visit_count + 1,
      last_visit := now,
      title := if title = "" then entry.title else title }
    { m with history := entry' :: eraseFirstP (fun e => e.url = url) m.history }
  | none =>
    let entry := HistoryEntry.init now url (if title = "" then url else title)
      1 none favicon
    let history := entry :: m.history
    { m with history := if history.length > m.max_entries then history.take m.max_entries else history }

def HistoryManager.remove (m : HistoryManager) (url : String) :
    Bool × HistoryManager :=
  let remaining := m.history.filter (fun h => h.url ≠ url)
  (decide (remaining.length < m.history.length), { m with history := remaining })

def HistoryManager.clear (m : HistoryManager) : HistoryManager :=
  { m with history := [] }

def HistoryManager.get_all (m : HistoryManager) (limit : Nat := 100) :
    List HistoryEntry :=
  m.history.take limit

/-- `HistoryManager.search`: filter by lowered-substring match on title or
url, then truncate to the first `limit` matches (`[:limit]`). -/
def HistoryManager.search (m : HistoryManager) (query : String)
    (limit : Nat := 50) : List HistoryEntry :=
  let query := pyLower query
  (m.history.filter (fun h => strIn query (pyLower h.title) || strIn query (pyLower h.url))).take limit

/-! ## src/productivity/todo_manager.py -/

structure Subtask where
  id : String
  text : String
  completed : Bool
  created_at : String
deriving DecidableEq

structure Todo where
  id : String
  text : String
  priority : String
  status : String
  due_date : Option String
  category : String
  tags : List String
  created_at : String
  updated_at : String
  completed_at : Option String
  subtasks : List Subtask
  notes : String
  reminder : Option String
  repeat' : Option String
deriving DecidableEq

/-- `Todo.__init__`; `id` stands for `_generate_id()` (a uuid prefix) and
`now` for `datetime.now().isoformat()`.  `TodoStatus.PENDING.value` is
`'pending'`. -/
def Todo.init (id now text : String) (priority : String := "medium")
    (due_date : Option String := none) (category : String := "default")
    (tags : Option (List String) := none) : Todo :=
  { id := id, text := text, priority := priority, status := "pending",
    due_date := due_date, category := category, tags := tags.getD [],
    created_at := now, updated_at := now, completed_at := none,
    subtasks := [], notes := "", reminder := none, repeat' := none }

structure TodoManager where
  todos : List Todo
  categories : List String
deriving DecidableEq

/-- State right after `TodoManager.__init__` field assignments (before
`_load`). -/
def TodoManager.init0 : TodoManager :=
  { todos := [], categories := ["default", "work", "personal", "shopping", "health"] }

/-- `TodoManager.add`: build the todo and `append` it (at the end). -/
def TodoManager.add (m : TodoManager) (id now text : String)
    (priority : String := "medium") (due_date : Option String := none)
    (category : String := "default") (tags : Option (List String) := none) :
    Todo × TodoManager :=
  let todo := Todo.init id now text priority due_date category tags
  (todo, { m with todos := m.todos ++ [todo] })

def TodoManager.remove (m : TodoManager) (todo_id : String) :
    Bool × TodoManager :=
  let remaining := m.todos.filter (fun t => t.id ≠ todo_id)
  (decide (remaining.length < m.todos.length), { m with todos := remaining })

/-- `TodoManager.get`: linear scan, first id match, else `None`. -/
def TodoManager.get (m : TodoManager) (todo_id : String) : Option Todo :=
  m.todos.find? (fun t => t.id = todo_id)

def TodoManager.get_all (m : TodoManager) : List Todo :=
  m.todos

/-- `TodoManager.search`: lowered-substring match on `text` or `notes`. -/
def TodoManager.search (m : TodoManager) (query : String) : List Todo :=
  let query := pyLower query
  m.todos.filter (fun t => strIn query (pyLower t.text) || strIn query (pyLower t.notes))

/-- `TodoManager.remove_category`: drop the category (never `'default'`;
`list.remove` erases the first occurrence) and move its todos to
`'default'`. -/
def TodoManager.remove_category (m : TodoManager) (category : String) :
    Bool × TodoManager :=
  if category ∈ m.categories ∧ category ≠ "default" then
    (true,
      { m with
        categories := eraseFirstP (fun c => c = category) m.categories,
        todos := m.todos.map (fun t =>
          if t.category = category then { t with category := "default" } else t) })
  else (false, m)

/-! ## src/privacy/tracker_blocker.py -/

/-- A `TrackerPattern`: the `compiled` field is the behaviour of
`re.compile(pattern, re.IGNORECASE).match` on the url, modelled as an
abstract Boolean function supplied by the regex engine. -/
structure TrackerPattern where
  pattern : String
  compiled : String → Bool
  category : String
  description : String

structure Tracker where
  domain : String
  category : String
  blocked_count : Nat
  first_seen : Option String
  last_seen : Option String

/-- `Tracker.__init__`. -/
def Tracker.init (domain category : String) (blocked_count : Nat := 0) : Tracker :=
  { domain := domain, category := category, blocked_count := blocked_count,
    first_seen := none, last_seen := none }

structure TrackerStats where
  total_blocked : Nat
  by_category : List (String × Nat)
  by_domain : List (String × Nat)

structure TrackerBlocker where
  enabled : Bool
  blocked_domains : List String
  whitelist : List String
  trackers : List (String × Tracker)
  stats : TrackerStats
  filters : List TrackerPattern

/-- `TrackerBlocker._extract_domain`.  A url containing `'://'` always splits
on `'/'` into at least three pieces, so index 2 exists. -/
def TrackerBlocker.extract_domain (url : String) : String :=
  let domain :=
    if strIn "://" url then (splitOnChar (Char.ofNat 47) url).getD 2 ""
    else (splitOnChar (Char.ofNat 47) url).getD 0 ""
  ((splitOnChar (Char.ofNat 58) domain).getD 0 "")

/-- `TrackerBlocker._record_block`: bump the three stat counters, create the
tracker entry if missing, bump its `blocked_count` (dict keys are unique, so
updating every pair with this key updates exactly the one entry). -/
def TrackerBlocker.record_block (m : TrackerBlocker) (domain category : String) :
    TrackerBlocker :=
  let stats : TrackerStats :=
    { total_blocked := m.stats.total_blocked + 1,
      by_category := dictIncr category m.stats.by_category,
      by_domain := dictIncr domain m.stats.by_domain }
  let trackers :=
    if m.trackers.any (fun kv => kv.1 = domain) then m.trackers
    else m.trackers ++ [(domain, Tracker.init domain category)]
  let trackers := trackers.map (fun kv =>
    if kv.1 = domain then (kv.1, { kv.2 with blocked_count := kv.2.blocked_count + 1 })
    else kv)
  { m with stats := stats, trackers := trackers }

/-- `TrackerBlocker.should_block` (the unused `page_domain` parameter is
dropped): returns the (blocked?, matching filter) pair and the updated
state. -/
def TrackerBlocker.should_block (m : TrackerBlocker) (url : String) :
    (Bool × Option TrackerPattern) × TrackerBlocker :=
  if !m.enabled then ((false, none), m)
  else
    let domain := TrackerBlocker.extract_domain url
    if domain ∈ m.whitelist then ((false, none), m)
    else if domain ∈ m.blocked_domains then
      ((true, none), m.record_block domain "manual")
    else
      match m.filters.find? (fun f => f.compiled url) with
      | some f => ((true, some f), m.record_block domain f.category)
      | none => ((false, none), m)

/-- One successfully evaluated `TrackerPattern(...)` entry of the default
filter list; `compile` is the regex engine (`re.compile(p, re.IGNORECASE)`
giving the match-at-start test used by `should_block`). -/
def tpEntry (compile : String → String → Bool)
    (pattern category description : String) : Except String TrackerPattern :=
  Except.ok ⟨pattern, compile pattern, category, description⟩

/-- The element expressions of the list literal in
`TrackerBlocker._load_default_filters`, in source order.  The entry written
`TrackerTrackerPattern(...)` names an undefined identifier, so evaluating it
raises `NameError`. -/
def defaultFilterEntries (compile : String → String → Bool) :
    List (Except String TrackerPattern) :=
  [ tpEntry compile ".*\\.google-analytics\\.com" "analytics" "Google Analytics",
    tpEntry compile ".*\\.googletagmanager\\.com" "analytics" "Google Tag Manager",
    tpEntry compile ".*\\.facebook\\.net/.*signals" "social" "Facebook Pixel",
    tpEntry compile ".*\\.facebook\\.com/tr" "social" "Facebook Tracking",
    tpEntry compile ".*\\.hotjar\\.com" "analytics" "Hotjar",
    tpEntry compile ".*\\.mixpanel\\.com" "analytics" "Mixpanel",
    tpEntry compile ".*\\.segment\\.io" "analytics" "Segment",
    tpEntry compile ".*\\.segment.com" "analytics" "Segment",
    tpEntry compile ".*\\.amplitude\\.com" "analytics" "Amplitude",
    tpEntry compile ".*\\.newrelic\\.com" "analytics" "New Relic",
    tpEntry compile ".*\\.fullstory\\.com" "analytics" "FullStory",
    tpEntry compile ".*\\.mouseflow\\.com" "analytics" "Mouseflow",
    tpEntry compile ".*\\.crazyegg\\.com" "analytics" "Crazy Egg",
    tpEntry compile ".*\\.luckyorange\\.com" "analytics" "Lucky Orange",
    tpEntry compile ".*\\.quantserve\\.com" "analytics" "Quantcast",
    tpEntry compile ".*\\.scorecardresearch\\.com" "analytics" "Comscore",
    tpEntry compile ".*\\.doubleclick\\.net" "advertising" "DoubleClick",
    tpEntry compile ".*\\.googlesyndication\\.com" "advertising" "Google Ads",
    tpEntry compile ".*\\.adnxs\\.com" "advertising" "AppNexus",
    tpEntry compile ".*\\.adsrvr\\.org" "advertising" "The Trade Desk",
    tpEntry compile ".*\\.advertising\\.com" "advertising" "Advertising.com",
    tpEntry compile ".*\\.criteo\\.com" "advertising" "Criteo",
    tpEntry compile ".*\\.taboola\\.com" "advertising" "Taboola",
    tpEntry compile ".*\\.outbrain\\.com" "advertising" "Outbrain",
    tpEntry compile ".*\\.amazon-adsystem\\.com" "advertising" "Amazon Ads",
    tpEntry compile ".*\\.bing\\.com/bat\\.js" "advertizing" "Bing Ads",
    tpEntry compile ".*\\.twitter\\.com/.*collect" "social" "Twitter Analytics",
    tpEntry compile ".*\\.linkedin\\.com/px" "social" "LinkedIn Pixel",
    tpEntry compile ".*\\.tiktok\\.com/.*event" "social" "TikTok Pixel",
    tpEntry compile ".*coinhive\\..*" "cryptomining" "CoinHive",
    tpEntry compile ".*coin-hive\\..*" "cryptomining" "CoinHive",
    tpEntry compile ".*cryptoloot\\..*" "cryptomining" "CryptoLoot",
    tpEntry compile ".*minero\\.cc" "cryptomining" "Minero",
    tpEntry compile ".*webminer\\..*" "cryptomining" "Web Miner",
    tpEntry compile ".*jsecoin\\..*" "cryptomining" "JSEcoin",
    tpEntry compile ".*\\.branch\\.io" "fingerprinting" "Branch",
    tpEntry compile ".*\\.fingerprintjs\\.com" "fingerprinting" "FingerprintJS",
    tpEntry compile ".*\\.iovation\\.com" "fingerprinting" "IOvation",
    tpEntry compile ".*\\.maxmind\\.com" "fingerprinting" "MaxMind",
    tpEntry compile ".*\\.optimizely\\.com" "ab_testing" "Optimizely",
    tpEntry compile ".*\\.vwo\\.com" "ab_testing" "VWO",
    tpEntry compile ".*\\.omniture\\.com" "analytics" "Adobe Analytics",
    tpEntry compile ".*\\.omtrdc\\.net" "analytics" "Adobe Analytics",
    tpEntry compile ".*\\.mookie1\\.com" "advertising" "Mookie1",
    tpEntry compile ".*\\.2mdn\\.net" "advertising" "DoubleClick Manager",
    tpEntry compile ".*\\.adform\\.net" "advertising" "Adform",
    tpEntry compile ".*\\.smartadserver\\.com" "advertising" "Smart AdServer",
    tpEntry compile ".*\\.rubiconproject\\.com" "advertising" "Rubicon",
    tpEntry compile ".*\\.pubmatic\\.com" "advertising" "PubMatic",
    tpEntry compile ".*\\.openx\\.net" "advertising" "OpenX",
    Except.error "NameError: name TrackerTrackerPattern is not defined",
    tpEntry compile ".*\\.casalemedia\\.com" "advertising" "Casale Media",
    tpEntry compile ".*\\.indexexchange\\.com" "advertising" "Index Exchange",
    tpEntry compile ".*\\.sharethrough\\.com" "advertising" "ShareThrough",
    tpEntry compile ".*\\.spotxchange\\.com" "advertising" "SpotXchange",
    tpEntry compile ".*\\.yieldmo\\.com" "advertising" "YieldMo",
    tpEntry compile ".*\\.contextweb\\.com" "advertising" "ContextWeb",
    tpEntry compile ".*\\.media\\.net" "advertising" "Media.net" ]

/-- `TrackerBlocker._load_default_filters`: evaluate the list literal
(left to right, first raise aborts). -/
def load_default_filters (compile : String → String → Bool) :
    Except String (List TrackerPattern) :=
  exceptSequence (defaultFilterEntries compile)

/-- The `common_trackers` list added to `blocked_domains` (a set; modelled as
the insertion-ordered list). -/
def common_trackers : List String :=
  [ "google-analytics.com", "googletagmanager.com", "facebook.net",
    "hotjar.com", "mixpanel.com", "segment.io", "amplitude.com",
    "doubleclick.net", "googlesyndication.com", "adnxs.com",
    "criteo.com", "taboola.com", "outbrain.com", "amazon-adsystem.com" ]

/-- `TrackerBlocker.__init__`: set the fields, then run
`_load_default_filters`; a raise there propagates and no instance is
produced. -/
def TrackerBlocker.init (compile : String → String → Bool) :
    Except String TrackerBlocker := do
  let filters ← load_default_filters compile
  Except.ok
    { enabled := true, blocked_domains := common_trackers, whitelist := [],
      trackers := [],
      stats := { total_blocked := 0, by_category := [], by_domain := [] },
      filters := filters }

/-! ## src/productivity/site_blocker.py -/

/-- A `BlockRule`; `compiled` models `re.compile(pattern, re.IGNORECASE)`
as an abstract search test (it is `None` unless `rule_type == 'regex'` and
compilation succeeded). -/
structure BlockRule where
  pattern : String
  rule_type : String
  reason : String
  enabled : Bool
  created_at : String
  hit_count : Nat
  last_hit : Option String
  compiled : Option (String → Bool)

/-- `BlockRule.__init__`; `now` stands for `datetime.now().isoformat()` and
`compiledIf` for the compiled regex when `rule_type == 'regex'` and
`re.compile` succeeds. -/
def BlockRule.init (now pattern : String) (rule_type : String := "domain")
    (reason : String := "") (enabled : Bool := true)
    (compiledIf : Option (String → Bool) := none) : BlockRule :=
  { pattern := pattern, rule_type := rule_type, reason := reason,
    enabled := enabled, created_at := now, hit_count := 0, last_hit := none,
    compiled := if rule_type = "regex" then compiledIf else none }

/-- `BlockRule.matches`. -/
def BlockRule.matches (r : BlockRule) (url : String) : Bool :=
  if !r.enabled then false
  else
    let url_lower := pyLower url
    if r.rule_type = "domain" then strIn (pyLower r.pattern) url_lower
    else if r.rule_type = "exact" then url_lower = pyLower r.pattern
    else if r.rule_type = "prefix" then strStartsWith url_lower (pyLower r.pattern)
    else if r.rule_type = "regex" then
      match r.compiled with
      | some c => c url
      | none => false
    else false

/-- The current wall clock, as `should_block` observes it: `weekday`
(`0 = Monday .. 6 = Sunday`) and the time of day as (hour, minute, second). -/
structure Now where
  weekday : Nat
  time : Nat × Nat × Nat

/-- `datetime.strptime(s, time-of-day format).time()` for the stored
`'HH:MM'` strings (on malformed input the source raises; the claims only
exercise well-formed times, a malformed string here yields a junk value). -/
def strptimeHM (s : String) : Nat × Nat × Nat :=
  match splitOnChar (Char.ofNat 58) s with
  | [h, m] => ((charsToNat? h.data).getD 0, (charsToNat? m.data).getD 0, 0)
  | _ => (0, 0, 0)

/-- Comparison of `datetime.time` values: lexicographic on
(hour, minute, second). -/
def timeLe (a b : Nat × Nat × Nat) : Bool :=
  decide (a.1 < b.1 ∨ (a.1 = b.1 ∧ (a.2.1 < b.2.1 ∨ (a.2.1 = b.2.1 ∧ a.2.2 ≤ b.2.2))))

structure SiteBlocker where
  enabled : Bool
  rules : List BlockRule
  whitelist : List String
  blocked_count : Nat
  schedule_enabled : Bool
  schedule_start : String
  schedule_end : String
  schedule_days : List Nat
  blocked_pages : List (String × String × String)

/-- `SiteBlocker.is_whitelisted`: substring match of any lowered whitelist
item in the lowered url. -/
def SiteBlocker.is_whitelisted (m : SiteBlocker) (url : String) : Bool :=
  m.whitelist.any (fun item => strIn (pyLower item) (pyLower url))

/-- `SiteBlocker.is_schedule_active`. -/
def SiteBlocker.is_schedule_active (m : SiteBlocker) (now : Now) : Bool :=
  if !(decide (now.weekday ∈ m.schedule_days)) then false
  else
    timeLe (strptimeHM m.schedule_start) now.time &&
      timeLe now.time (strptimeHM m.schedule_end)

/-- `SiteBlocker.should_block`; `nowIso` is `datetime.now().isoformat()`
used for the hit record.  On a rule hit the found rule is mutated
(`record_hit`), the counters and `blocked_pages` updated, and that mutated
rule returned (callbacks and the file write are outside the state model). -/
def SiteBlocker.should_block (m : SiteBlocker) (now : Now) (nowIso : String)
    (url : String) : (Bool × Option BlockRule) × SiteBlocker :=
  if !m.enabled then ((false, none), m)
  else if m.is_whitelisted url then ((false, none), m)
  else if m.schedule_enabled && !(m.is_schedule_active now) then ((false, none), m)
  else
    match m.rules.find? (fun r => r.matches url) with
    | some r =>
      let r' := { r with hit_count := r.hit_count + 1, last_hit := some nowIso }
      ((true, some r'),
        { m with
          rules := updateFirstP (fun q => q.matches url)
            (fun q => { q with hit_count := q.hit_count + 1, last_hit := some nowIso })
            m.rules,
          blocked_count := m.blocked_count + 1,
          blocked_pages := m.blocked_pages ++ [(url, r.pattern, nowIso)] })
    | none => ((false, none), m)

/-! ## src/smart/translator.py -/

structure TranslationResult where
  original : String
  translated : String
  source_lang : String
  target_lang : String
deriving DecidableEq

structure Translator where
  source_lang : String
  target_lang : String
  history : List TranslationResult
  favorites : List TranslationResult
deriving DecidableEq

/-- State right after `Translator.__init__` field assignments (before
`_load`; the `languages` table is a constant). -/
def Translator.init0 : Translator :=
  { source_lang := "auto", target_lang := "en", history := [], favorites := [] }

/-- The `lang_names` table in `_translate_text`. -/
def lang_names : List (String × String) :=
  [ ("en", "English"), ("ru", "Russian"), ("uk", "Ukrainian"),
    ("es", "Spanish"), ("fr", "French"), ("de", "German"),
    ("it", "Italian"), ("pt", "Portuguese"), ("zh", "Chinese"),
    ("ja", "Japanese"), ("ko", "Korean") ]

/-- `lang_names.get(code, code)`. -/
def lang_names_get (code : String) : String :=
  ((lang_names.find? (fun kv => kv.1 = code)).map (fun kv => kv.2)).getD code

/-- `Translator._detect_language`.  The Cyrillic-ratio test
`len(cyrillic) / len(text) > 0.3` is float division in the source; it is
modelled exactly on the rationals as `10 * count > 3 * len` (the two only
disagree on freak boundary inputs, and on empty text the source raises
`ZeroDivisionError` while this model returns the `'en'` fallback; the
claims only use non-empty text away from the boundary). -/
def detect_language (text : String) : String :=
  let chars := text.data
  let cyrillic := chars.filter (fun c => 0x400 ≤ c.val.toNat ∧ c.val.toNat ≤ 0x4FF)
  if 10 * cyrillic.length > 3 * chars.length then
    if ["ій", "є", "ї"].any (fun s => strIn s text) then "uk" else "ru"
  else
    let cjk := chars.filter (fun c =>
      (0x4e00 ≤ c.val.toNat ∧ c.val.toNat ≤ 0x9fff) ∨
      (0x3040 ≤ c.val.toNat ∧ c.val.toNat ≤ 0x309f) ∨
      (0x30a0 ≤ c.val.toNat ∧ c.val.toNat ≤ 0x30ff))
    if cjk ≠ [] then
      if cjk.any (fun c => c.val.toNat > 0x3000) then "zh" else "ja"
    else
      let korean := chars.filter (fun c => 0xac00 ≤ c.val.toNat ∧ c.val.toNat ≤ 0xd7af)
      if korean ≠ [] then "ko" else "en"

/-- `Translator._translate_text` (the computed `source_name` is unused in
the source and dropped here). -/
def translate_text (text source target : String) : String :=
  let source := if source = "auto" then detect_language text else source
  if source = target then text
  else "[" ++ lang_names_get target ++ "] " ++ text

/-- `Translator.translate`: empty text gives `None`; otherwise translate,
push the result on the history (capped at 100) and return it. -/
def Translator.translate (m : Translator) (text : String)
    (source : String := "auto") (target : Option String := none) :
    Option TranslationResult × Translator :=
  if text = "" then (none, m)
  else
    let target := target.getD m.target_lang
    let translated := translate_text text source target
    let result : TranslationResult :=
      { original := text, translated := translated,
        source_lang := source, target_lang := target }
    (some result, { m with history := (result :: m.history).take 100 })

/-! ## Concrete states used by witnesses and counterexamples -/

def emptyStats : TrackerStats := { total_blocked := 0, by_category := [], by_domain := [] }

def tbBase : TrackerBlocker :=
  { enabled := true, blocked_domains := [], whitelist := [], trackers := [],
    stats := emptyStats, filters := [] }

def tbOff : TrackerBlocker := { tbBase with enabled := false }

def tbWl : TrackerBlocker := { tbBase with whitelist := ["w.com"] }

def tbBd : TrackerBlocker := { tbBase with blocked_domains := ["b.com"] }

def tpAll : TrackerPattern :=
  { pattern := ".*", compiled := fun _ => true, category := "analytics",
    description := "catch all" }

def tbF : TrackerBlocker := { tbBase with filters := [tpAll] }

/-! ## Theorems -/

/-- C1: `TrackerBlocker.should_block` evaluates in this order: disabled ⇒
allow; extracted domain whitelisted ⇒ allow; extracted domain in the
blocked-domain set ⇒ block (no pattern) and record a hit for that domain;
otherwise the first matching filter pattern (in list order) ⇒ block with
that pattern, recording a hit under its category; no match ⇒ allow. -/
theorem tracker_should_block_eval_order (m : TrackerBlocker) (url : String) :
    (m.enabled = false → m.should_block url = ((false, none), m)) ∧
    (m.enabled = true →
      TrackerBlocker.extract_domain url ∈ m.whitelist →
      m.should_block url = ((false, none), m)) ∧
    (m.enabled = true →
      TrackerBlocker.extract_domain url ∉ m.whitelist →
      TrackerBlocker.extract_domain url ∈ m.blocked_domains →
      m.should_block url =
        ((true, none), m.record_block (TrackerBlocker.extract_domain url) "manual")) ∧
    (∀ f, m.enabled = true →
      TrackerBlocker.extract_domain url ∉ m.whitelist →
      TrackerBlocker.extract_domain url ∉ m.blocked_domains →
      m.filters.find? (fun f => f.compiled url) = some f →
      m.should_block url =
        ((true, some f), m.record_block (TrackerBlocker.extract_domain url) f.category)) ∧
    (m.enabled = true →
      TrackerBlocker.extract_domain url ∉ m.whitelist →
      TrackerBlocker.extract_domain url ∉ m.blocked_domains →
      m.filters.find? (fun f => f.compiled url) = none →
      m.should_block url = ((false, none), m)) := by
  refine ⟨?_, ?_, ?_, ?_, ?_⟩
  · intro h; simp [TrackerBlocker.should_block, h]
  · intro h hw; simp [TrackerBlocker.should_block, h, hw]
  · intro h hw hb; simp [TrackerBlocker.should_block, h, hw, hb]
  · intro f h hw hb hf; simp [TrackerBlocker.should_block, h, hw, hb, hf]
  · intro h hw hb hf; simp [TrackerBlocker.should_block, h, hw, hb, hf]

/-- C1 witness: each branch of the evaluation order at a concrete state. -/
theorem tracker_should_block_eval_order_witness :
    tbOff.should_block "http://x.com/" = ((false, none), tbOff) ∧
    tbWl.should_block "http://w.com/x" = ((false, none), tbWl) ∧
    tbBd.should_block "http://b.com/x" =
      ((true, none), tbBd.record_block "b.com" "manual") ∧
    tbF.should_block "http://c.com/x" =
      ((true, some tpAll), tbF.record_block "c.com" "analytics") ∧
    tbBase.should_block "http://c.com/x" = ((false, none), tbBase) :=
  ⟨(tracker_should_block_eval_order tbOff "http://x.com/").1 rfl,
   (tracker_should_block_eval_order tbWl "http://w.com/x").2.1 rfl (by decide),
   (tracker_should_block_eval_order tbBd "http://b.com/x").2.2.1 rfl (by decide) (by decide),
   (tracker_should_block_eval_order tbF "http://c.com/x").2.2.2.1 tpAll rfl (by decide)
     (by decide) rfl,
   (tracker_should_block_eval_order tbBase "http://c.com/x").2.2.2.2 rfl (by decide)
     (by decide) rfl⟩

/-- C2: constructing a `TrackerBlocker` fails: `_load_default_filters`
raises `NameError` at the entry written `TrackerTrackerPattern(...)`, for
every behaviour of the regex engine, so no instance with the default
filters is produced. -/
theorem tracker_blocker_init_raises (compile : String → String → Bool) :
    TrackerBlocker.init compile =
      Except.error "NameError: name TrackerTrackerPattern is not defined" := rfl

/-- Auxiliary: a bookmark list whose members all carry a truthy (non-empty)
`created_at` maps to itself under a dict round trip. -/
theorem bookmark_list_from_to (now : String) :
    ∀ l : List Bookmark, (∀ b ∈ l, b.created_at ≠ "") →
      l.map (fun b => Bookmark.from_dict now b.to_dict) = l := by
  intro l
  induction l with
  | nil => intro _; rfl
  | cons b rest ih =>
    intro h
    have hb := h b (List.mem_cons_self b rest)
    have hrest := ih (fun x hx => h x (List.mem_cons_of_mem b hx))
    simp only [List.map_cons, hrest]
    simp [Bookmark.from_dict, Bookmark.init, Bookmark.to_dict, pyOrStr, hb]

/-- C3: a save/load round trip reproduces the in-memory bookmark list and
folders map field-for-field: `from_dict ∘ to_dict` is the identity on each
bookmark, and `_load` of the document `_save` writes restores the manager.
(Every bookmark the code constructs has a non-empty `created_at`, since
`__init__` fills a falsy argument with `datetime.now().isoformat()`; the
hypothesis records that.) -/
theorem bookmark_save_load_roundtrip (now : String) (m : BookmarkManager)
    (h : ∀ b ∈ m.bookmarks, b.created_at ≠ "") :
    (∀ b : Bookmark, b.created_at ≠ "" → Bookmark.from_dict now b.to_dict = b) ∧
    BookmarkManager.loadFrom now m.save = m := by
  constructor
  · intro b hb
    simp [Bookmark.from_dict, Bookmark.init, Bookmark.to_dict, pyOrStr, hb]
  · cases m with
    | mk bookmarks folders =>
      simp only [BookmarkManager.loadFrom, BookmarkManager.save, List.map_map]
      congr 1
      exact bookmark_list_from_to now bookmarks h

/-- C3 witness: the round trip at a one-bookmark manager. -/
theorem bookmark_save_load_roundtrip_witness :
    (Bookmark.from_dict "N"
       (Bookmark.to_dict ⟨"https://example.com", "Example", "default", "", "T"⟩) =
       ⟨"https://example.com", "Example", "default", "", "T"⟩) ∧
    BookmarkManager.loadFrom "N"
      (BookmarkManager.save
        ⟨[⟨"https://example.com", "Example", "default", "", "T"⟩],
         [("default", "Default")]⟩) =
      ⟨[⟨"https://example.com", "Example", "default", "", "T"⟩],
       [("default", "Default")]⟩ :=
  ⟨(bookmark_save_load_roundtrip "N"
      ⟨[⟨"https://example.com", "Example", "default", "", "T"⟩],
       [("default", "Default")]⟩ (by decide)).1
      ⟨"https://example.com", "Example", "default", "", "T"⟩ (by decide),
   (bookmark_save_load_roundtrip "N"
      ⟨[⟨"https://example.com", "Example", "default", "", "T"⟩],
       [("default", "Default")]⟩ (by decide)).2⟩

/-- C4: with the site blocker enabled and scheduling configured but
inactive (the weekday is outside `schedule_days`, or the time of day is
outside the `[schedule_start, schedule_end]` window), `should_block`
allows every URL, even one matching an enabled rule. -/
theorem site_blocker_schedule_inactive_allows (m : SiteBlocker) (now : Now)
    (nowIso url : String) (he : m.enabled = true) (hs : m.schedule_enabled = true)
    (hi : now.weekday ∉ m.schedule_days ∨
      ¬(timeLe (strptimeHM m.schedule_start) now.time = true ∧
        timeLe now.time (strptimeHM m.schedule_end) = true)) :
    m.should_block now nowIso url = ((false, none), m) := by
  have hact : m.is_schedule_active now = false := by
    unfold SiteBlocker.is_schedule_active
    rcases hi with h1 | h2
    · simp [h1]
    · by_cases hd : now.weekday ∈ m.schedule_days
      · rw [if_neg (by simp [hd])]
        cases ha : timeLe (strptimeHM m.schedule_start) now.time <;>
          cases hb : timeLe now.time (strptimeHM m.schedule_end) <;> simp_all
      · simp [hd]
  unfold SiteBlocker.should_block
  by_cases hw : m.is_whitelisted url <;> simp [he, hs, hact, hw]

/-- A concrete always-on social rule for the C4 witness. -/
def fbRule : BlockRule :=
  { pattern := "facebook.com", rule_type := "domain", reason := "Social media",
    enabled := true, created_at := "T", hit_count := 0, last_hit := none,
    compiled := none }

/-- A concrete enabled site blocker whose weekday schedule excludes
Saturday (weekday 5). -/
def sbSat : SiteBlocker :=
  { enabled := true, rules := [fbRule], whitelist := [], blocked_count := 0,
    schedule_enabled := true, schedule_start := "09:00", schedule_end := "17:00",
    schedule_days := [0, 1, 2, 3, 4], blocked_pages := [] }

/-- C4 witness: on a Saturday even a URL matching the enabled rule is
allowed. -/
theorem site_blocker_schedule_inactive_allows_witness :
    fbRule.matches "https://facebook.com/feed" = true ∧
    sbSat.should_block ⟨5, (10, 0, 0)⟩ "T2" "https://facebook.com/feed" =
      ((false, none), sbSat) :=
  ⟨by decide,
   site_blocker_schedule_inactive_allows sbSat ⟨5, (10, 0, 0)⟩ "T2"
     "https://facebook.com/feed" rfl rfl (Or.inl (by decide))⟩

/-- The spec's folder invariant for bookmarks: every stored bookmark's
folder is a key of the folders map. -/
def BookmarkManager.folderInvariant (m : BookmarkManager) : Prop :=
  ∀ b ∈ m.bookmarks, b.folder ∈ m.folders.map Prod.fst

/-- The spec's category invariant for todos. -/
def TodoManager.categoryInvariant (m : TodoManager) : Prop :=
  ∀ t ∈ m.todos, t.category ∈ m.categories

/-- C5 counterexample: `add` performs no membership check, so adding a
bookmark with folder `"nonexistent"` to a fresh manager breaks the
claimed invariant. -/
theorem folder_invariant_cex :
    ¬ BookmarkManager.folderInvariant
        (BookmarkManager.init0.add "N" "https://x.com" "X" "nonexistent" "").2 := by
  intro h
  have := h (Bookmark.init "N" "https://x.com" "X" "nonexistent" "")
    (List.mem_cons_self _ _)
  revert this
  decide

/-- Auxiliary: erasing the first element satisfying `p` keeps every member
that does not satisfy `p`. -/
theorem mem_eraseFirstP_of_not {p : α → Bool} {x : α} :
    ∀ l : List α, x ∈ l → ¬ p x = true → x ∈ eraseFirstP p l := by
  intro l
  induction l with
  | nil => intro hx _; cases hx
  | cons y ys ih =>
    intro hx hpx
    rcases List.mem_cons.mp hx with rfl | hx'
    · have hfalse : p x = false := by
        cases h : p x
        · rfl
        · exact absurd h hpx
      rw [show eraseFirstP p (x :: ys) = x :: eraseFirstP p ys by
        simp [eraseFirstP, hfalse]]
      exact List.mem_cons_self _ _
    · by_cases hy : p y
      · rw [show eraseFirstP p (y :: ys) = ys by simp [eraseFirstP, hy]]
        exact hx'
      · rw [show eraseFirstP p (y :: ys) = y :: eraseFirstP p ys by
          simp [eraseFirstP, hy]]
        exact List.mem_cons_of_mem y (ih hx' hpx)

/-- C5 amended: the folder/category invariant is not checked by `add`;
starting from an invariant-satisfying state, `add` preserves it exactly
when the supplied folder/category is already in the fixed set, while
`remove_folder` preserves it whenever `'default'` is a folder key and
`remove_category` whenever `'default'` is a category. -/
theorem folder_category_invariant_amended :
    (∀ (m : BookmarkManager) (now url title folder favicon : String),
      m.folderInvariant →
      (((m.add now url title folder favicon).2).folderInvariant ↔
        folder ∈ m.folders.map Prod.fst)) ∧
    (∀ (m : BookmarkManager) (name : String),
      m.folderInvariant → "default" ∈ m.folders.map Prod.fst →
      (m.remove_folder name).folderInvariant) ∧
    (∀ (m : TodoManager) (id now text priority : String) (due : Option String)
      (category : String) (tags : Option (List String)),
      m.categoryInvariant →
      (((m.add id now text priority due category tags).2).categoryInvariant ↔
        category ∈ m.categories)) ∧
    (∀ (m : TodoManager) (category : String),
      m.categoryInvariant → "default" ∈ m.categories →
      ((m.remove_category category).2).categoryInvariant) := by
  refine ⟨?_, ?_, ?_, ?_⟩
  · intro m now url title folder favicon hinv
    constructor
    · intro hafter
      have hmem : Bookmark.init now url title folder favicon ∈
          ((m.add now url title folder favicon).2).bookmarks :=
        List.mem_cons_self _ _
      exact hafter _ hmem
    · intro hf b hb
      rcases List.mem_cons.mp hb with hbn | hbo
      · subst hbn; exact hf
      · exact hinv b hbo
  · intro m name hinv hd
    unfold BookmarkManager.remove_folder
    by_cases hc : m.folders.any (fun kv => kv.1 = name) ∧ name ≠ "default"
    · rw [if_pos hc]
      intro b hb
      rcases List.mem_map.mp hb with ⟨b0, hb0, hbeq⟩
      rcases List.mem_map.mp (hinv b0 hb0) with ⟨kv, hkv, hkveq⟩
      rcases List.mem_map.mp hd with ⟨kvd, hkvd, hkvdeq⟩
      by_cases hfold : b0.folder = name
      · subst hbeq
        rw [if_pos hfold]
        exact List.mem_map.mpr ⟨kvd,
          List.mem_filter.mpr ⟨hkvd,
            decide_eq_true (by rw [hkvdeq]; exact Ne.symm hc.2)⟩, hkvdeq⟩
      · subst hbeq
        rw [if_neg hfold]
        exact List.mem_map.mpr ⟨kv,
          List.mem_filter.mpr ⟨hkv,
            decide_eq_true (by rw [hkveq]; exact hfold)⟩, hkveq⟩
    · rw [if_neg hc]
      exact hinv
  · intro m id now text priority due category tags hinv
    constructor
    · intro hafter
      have hmem : Todo.init id now text priority due category tags ∈
          ((m.add id now text priority due category tags).2).todos :=
        List.mem_append.mpr (Or.inr (List.mem_singleton.mpr rfl))
      exact hafter _ hmem
    · intro hc t ht
      rcases List.mem_append.mp ht with hto | htn
      · exact hinv t hto
      · rcases List.mem_singleton.mp htn with rfl
        exact hc
  · intro m category hinv hd
    unfold TodoManager.remove_category
    by_cases hc : category ∈ m.categories ∧ category ≠ "default"
    · rw [if_pos hc]
      intro t ht
      rcases List.mem_map.mp ht with ⟨t0, ht0, hteq⟩
      by_cases htc : t0.category = category
      · subst hteq
        rw [if_pos htc]
        exact mem_eraseFirstP_of_not m.categories hd
          (by simpa using Ne.symm hc.2)
      · subst hteq
        rw [if_neg htc]
        exact mem_eraseFirstP_of_not m.categories (hinv t0 ht0) (by simpa using htc)
    · rw [if_neg hc]
      exact hinv

/-- C5 witness: `add` with an in-set folder/category, `remove_folder` and
`remove_category` preserve the invariant on concrete managers. -/
theorem folder_category_invariant_amended_witness :
    ((BookmarkManager.init0.add "N" "https://x.com" "X" "work" "").2).folderInvariant ∧
    ((BookmarkManager.init0.add "N" "https://x.com" "X" "work" "").2.remove_folder
      "work").folderInvariant ∧
    ((TodoManager.init0.add "id1" "N" "buy milk" "medium" none "work" none).2).categoryInvariant ∧
    (((TodoManager.init0.add "id1" "N" "buy milk" "medium" none "work" none).2.remove_category
      "work").2).categoryInvariant :=
  ⟨(folder_category_invariant_amended.1 BookmarkManager.init0 "N" "https://x.com" "X"
      "work" "" (by intro b hb; cases hb)).mpr (by decide),
   folder_category_invariant_amended.2.1 _ "work"
      ((folder_category_invariant_amended.1 BookmarkManager.init0 "N" "https://x.com" "X"
        "work" "" (by intro b hb; cases hb)).mpr (by decide))
      (by decide),
   (folder_category_invariant_amended.2.2.1 TodoManager.init0 "id1" "N" "buy milk"
      "medium" none "work" none (by intro t ht; cases ht)).mpr (by decide),
   folder_category_invariant_amended.2.2.2 _ "work"
      ((folder_category_invariant_amended.2.2.1 TodoManager.init0 "id1" "N" "buy milk"
        "medium" none "work" none (by intro t ht; cases ht)).mpr (by decide))
      (by decide)⟩

/-- A history manager holding 51 entries that all match the query `"a"`. -/
def hmCex : HistoryManager :=
  { history := (List.range 51).map (fun i =>
      { url := "u" ++ toString i, title := "a", visit_count := 1,
        last_visit := "t", favicon := "", first_visit := "t" }),
    max_entries := 10000 }

/-- C6 counterexample: `HistoryManager.search` truncates to the first
`limit` (default 50) matches, so on 51 matching entries it does not return
exactly the entries whose title or url contains the query. -/
theorem history_search_truncation_cex :
    hmCex.search "a" 50 ≠
      hmCex.history.filter (fun h =>
        strIn (pyLower "a") (pyLower h.title) || strIn (pyLower "a") (pyLower h.url)) := by
  intro hEq
  exact absurd (congrArg List.length hEq) (by decide)

/-- C6 amended: each `search` is the case-insensitive substring filter of
the stored list, but over different fields and with different truncation:
`BookmarkManager` filters title/url and returns all matches,
`HistoryManager` filters title/url and keeps only the first `limit`
matches, `TodoManager` filters text/notes (todos have no title or url). -/
theorem search_filter_characterization :
    (∀ (m : BookmarkManager) (q : String) (b : Bookmark),
      b ∈ m.search q ↔ b ∈ m.bookmarks ∧
        (strIn (pyLower q) (pyLower b.title) || strIn (pyLower q) (pyLower b.url)) = true) ∧
    (∀ (m : HistoryManager) (q : String) (limit : Nat),
      m.search q limit =
        (m.history.filter (fun h =>
          strIn (pyLower q) (pyLower h.title) || strIn (pyLower q) (pyLower h.url))).take limit) ∧
    (∀ (m : TodoManager) (q : String) (t : Todo),
      t ∈ m.search q ↔ t ∈ m.todos ∧
        (strIn (pyLower q) (pyLower t.text) || strIn (pyLower q) (pyLower t.notes)) = true) := by
  refine ⟨?_, ?_, ?_⟩
  · intro m q b
    simp [BookmarkManager.search, List.mem_filter]
  · intro m q limit
    rfl
  · intro m q t
    simp [TodoManager.search, List.mem_filter]

/-- C7 counterexample: the stub translation inserts the target language's
display name, not its code: translating `"hello"` from `"fr"` to `"en"`
yields `"[English] hello"`, which differs from the claimed `"[en] hello"`. -/
theorem translate_bracket_cex :
    (Translator.init0.translate "hello" "fr" (some "en")).1 =
      some { original := "hello", translated := "[English] hello",
             source_lang := "fr", target_lang := "en" } ∧
    "[English] hello" ≠ "[en] hello" := by
  exact ⟨rfl, by decide⟩

/-- C7 amended: for non-empty text the translated field is the text itself
when the source language (after auto-detection) equals the target, and
otherwise `"[" + name + "] " + text` where `name` is the target's English
display name from the internal 11-language table, the target code itself
when the target is not in that table. -/
theorem translate_translated_format (m : Translator) (text source target : String)
    (h : text ≠ "") :
    ((m.translate text source (some target)).1).map (fun r => r.translated) =
      some (if (if source = "auto" then detect_language text else source) = target
            then text
            else "[" ++ lang_names_get target ++ "] " ++ text) := by
  simp [Translator.translate, h, translate_text]

/-- C7 amended witness. -/
theorem translate_translated_format_witness :
    ((Translator.init0.translate "bonjour" "fr" (some "de")).1).map
        (fun r => r.translated) = some "[German] bonjour" :=
  translate_translated_format Translator.init0 "bonjour" "fr" "de" (by decide)

/-- Auxiliary: a failing `find?` over the left part of an append skips it. -/
theorem find?_append_of_none {p : α → Bool} :
    ∀ {l₁ : List α} (l₂ : List α), l₁.find? p = none →
      (l₁ ++ l₂).find? p = l₂.find? p := by
  intro l₁
  induction l₁ with
  | nil => intro l₂ _; rfl
  | cons x xs ih =>
    intro l₂ h
    cases hx : p x with
    | true => simp [List.find?, hx] at h
    | false =>
      simp only [List.find?, hx] at h
      simp only [List.cons_append, List.find?, hx]
      exact ih l₂ h

/-- C8: after `add`, provided the generated id is fresh, `get` with the new
todo's id returns exactly that todo. -/
theorem todo_add_then_get (m : TodoManager) (id now text priority : String)
    (due : Option String) (category : String) (tags : Option (List String))
    (h : ∀ t ∈ m.todos, t.id ≠ id) :
    TodoManager.get (m.add id now text priority due category tags).2 id =
      some (m.add id now text priority due category tags).1 := by
  have hn : m.todos.find? (fun t => t.id = id) = none :=
    List.find?_eq_none.mpr (fun t ht => by simpa using h t ht)
  simp only [TodoManager.get, TodoManager.add]
  rw [find?_append_of_none _ hn]
  simp [List.find?, Todo.init]

/-- C8 witness: add to the fresh manager, then get. -/
theorem todo_add_then_get_witness :
    TodoManager.get
        (TodoManager.init0.add "id1" "N" "buy milk" "medium" none "default" none).2
        "id1" =
      some (TodoManager.init0.add "id1" "N" "buy milk" "medium" none "default" none).1 :=
  todo_add_then_get TodoManager.init0 "id1" "N" "buy milk" "medium" none "default"
    none (by intro t ht; cases ht)

/-- Auxiliary: filtering strictly shrinks a list exactly when some element
fails the predicate. -/
theorem length_filter_lt_iff_exists_not {p : α → Bool} :
    ∀ l : List α, ((l.filter p).length < l.length) ↔ ∃ x ∈ l, ¬ p x = true := by
  intro l
  induction l with
  | nil => simp
  | cons x xs ih =>
    by_cases hx : p x
    · simp [List.filter_cons, hx, Nat.succ_lt_succ_iff, ih]
    · simp only [List.filter_cons, hx, if_false]
      constructor
      · intro _
        exact ⟨x, List.mem_cons_self x xs, by simp [hx]⟩
      · intro _
        exact Nat.lt_succ_of_le (List.length_filter_le p xs)

/-- C9: after `remove(id)`, `get(id)` returns `None`; and `remove` returns
`True` exactly when some stored todo had that id. -/
theorem todo_remove_then_get (m : TodoManager) (todo_id : String) :
    TodoManager.get (m.remove todo_id).2 todo_id = none ∧
    ((m.remove todo_id).1 = true ↔ ∃ t ∈ m.todos, t.id = todo_id) := by
  constructor
  · apply List.find?_eq_none.mpr
    intro x hx
    have hkeep := (List.mem_filter.mp hx).2
    simp at hkeep ⊢
    exact hkeep
  · simp only [TodoManager.remove, decide_eq_true_eq]
    rw [length_filter_lt_iff_exists_not]
    simp

/-- No two stored history entries share a url. -/
def urlsDistinct (m : HistoryManager) : Prop :=
  m.history.Pairwise (fun a b => a.url ≠ b.url)

/-- Auxiliary: `eraseFirstP` yields a sublist. -/
theorem eraseFirstP_sublist (p : α → Bool) :
    ∀ l : List α, List.Sublist (eraseFirstP p l) l := by
  intro l
  induction l with
  | nil => simp [eraseFirstP]
  | cons x xs ih =>
    simp only [eraseFirstP]
    by_cases hx : p x
    · rw [if_pos hx]
      exact List.sublist_cons_self x xs
    · rw [if_neg hx]
      exact List.Sublist.cons₂ x ih

/-- Auxiliary: in a list with pairwise-distinct urls, erasing the first
entry with url `u` leaves no entry with url `u`. -/
theorem mem_eraseFirstP_url {u : String} :
    ∀ l : List HistoryEntry, l.Pairwise (fun a b => a.url ≠ b.url) →
      ∀ x ∈ eraseFirstP (fun e => e.url = u) l, x.url ≠ u := by
  intro l
  induction l with
  | nil => intro _ x hx; cases hx
  | cons e rest ih =>
    intro hp x hx
    rw [List.pairwise_cons] at hp
    by_cases he : e.url = u
    · rw [show eraseFirstP (fun e => e.url = u) (e :: rest) = rest by
        simp [eraseFirstP, he]] at hx
      have hne := hp.1 x hx
      rw [he] at hne
      exact Ne.symm hne
    · rw [show eraseFirstP (fun e => e.url = u) (e :: rest) =
          e :: eraseFirstP (fun e => e.url = u) rest by simp [eraseFirstP, he]] at hx
      rcases List.mem_cons.mp hx with rfl | hx'
      · exact he
      · exact ih hp.2 x hx'

/-- Auxiliary: a `Pairwise` list stays `Pairwise` after an optional
truncation. -/
theorem pairwise_take_or_self {R : α → α → Prop} {l : List α}
    (h : l.Pairwise R) (n : Nat) (c : Prop) [Decidable c] :
    (if c then l.take n else l).Pairwise R := by
  split
  · exact List.Pairwise.sublist (List.take_sublist _ _) h
  · exact h

/-- C10: url-uniqueness of the history list is an invariant of `add`
(which, on a url already present, only updates and moves the existing
entry), `remove` and `clear`. -/
theorem history_no_duplicate_urls (m : HistoryManager)
    (now url title favicon : String) (h : urlsDistinct m) :
    urlsDistinct (m.add now url title favicon) ∧
    urlsDistinct (m.remove url).2 ∧
    urlsDistinct m.clear := by
  refine ⟨?_, ?_, ?_⟩
  · unfold HistoryManager.add
    cases hfind : m.history.find? (fun e => e.url = url) with
    | some e =>
      simp only [hfind]
      have heu : e.url = url := by
        have := List.find?_some hfind
        simpa using this
      apply List.pairwise_cons.mpr
      constructor
      · intro x hx
        have hxne := mem_eraseFirstP_url m.history h x hx
        show e.url ≠ x.url
        rw [heu]
        exact Ne.symm hxne
      · exact List.Pairwise.sublist (eraseFirstP_sublist _ m.history) h
    | none =>
      simp only [hfind]
      have hn : ∀ e ∈ m.history, e.url ≠ url := by
        intro e he
        have := List.find?_eq_none.mp hfind e he
        simpa using this
      have hcons :
          (HistoryEntry.init now url (if title = "" then url else title) 1 none favicon
            :: m.history).Pairwise (fun a b => a.url ≠ b.url) := by
        apply List.pairwise_cons.mpr
        exact ⟨fun x hx => Ne.symm (hn x hx), h⟩
      exact pairwise_take_or_self hcons m.max_entries _
  · exact List.Pairwise.sublist (List.filter_sublist _) h
  · exact List.Pairwise.nil

/-- A concrete one-entry history manager for the C10 witness. -/
def hm1 : HistoryManager :=
  { history := [{ url := "https://a.com", title := "A", visit_count := 1,
                  last_visit := "t", favicon := "", first_visit := "t" }],
    max_entries := 10000 }

/-- C10 witness: a revisit of the stored url, a removal and a clear all
keep urls unique. -/
theorem history_no_duplicate_urls_witness :
    urlsDistinct (hm1.add "t2" "https://a.com" "" "") ∧
    urlsDistinct (hm1.remove "https://a.com").2 ∧
    urlsDistinct hm1.clear :=
  history_no_duplicate_urls hm1 "t2" "https://a.com" "" ""
    (List.pairwise_singleton _ _)

end Browser
